import Mathlib

/-!
Shallow embedding of src/py_io_uring.c: a CPython extension wrapping
liburing.  The embedding models the lifecycle state the module manages
(pending-submission list, per-request buffer slots, completion-wrapper
caching, acknowledgment) as explicit state passing; kernel return values
are parameters.  Reference-count effects that the claims talk about
(submission pins, wrapper liveness) are modelled as ghost counters and
liveness sets.
-/

namespace PyIoUring

/-- Opcode values from the io_uring kernel header, as stored in
sqe->opcode and copied into SqeObject.operation by the prep calls. -/
def IORING_OP_NOP : Int := 0

/-- Opcode IORING_OP_TIMEOUT. -/
def IORING_OP_TIMEOUT : Int := 11

/-- Opcode IORING_OP_TIMEOUT_REMOVE. -/
def IORING_OP_TIMEOUT_REMOVE : Int := 12

/-- Opcode IORING_OP_ACCEPT. -/
def IORING_OP_ACCEPT : Int := 13

/-- Opcode IORING_OP_ASYNC_CANCEL. -/
def IORING_OP_ASYNC_CANCEL : Int := 14

/-- Opcode IORING_OP_CONNECT. -/
def IORING_OP_CONNECT : Int := 16

/-- Opcode IORING_OP_CLOSE. -/
def IORING_OP_CLOSE : Int := 19

/-- Opcode IORING_OP_READ. -/
def IORING_OP_READ : Int := 22

/-- Opcode IORING_OP_WRITE. -/
def IORING_OP_WRITE : Int := 23

/-- Opcode IORING_OP_SEND. -/
def IORING_OP_SEND : Int := 26

/-- Opcode IORING_OP_RECV. -/
def IORING_OP_RECV : Int := 27

/-- Python values produced by the module: None, ints (PyLong), and bytes
objects (a bytes object is its byte sequence). -/
inductive PyValue
  | none
  | int (n : Int)
  | bytes (bs : List Nat)
  deriving DecidableEq, Repr

/-- Tags identifying which extension type a Python object argument has. -/
inductive PyTypeTag
  | sqeType
  | cqeType
  | ringType
  deriving DecidableEq, Repr

/-- An argument passed from Python into a method call: an integer or an
extension object carrying its type tag and object identity. -/
inductive PyArg
  | int (n : Int)
  | obj (ty : PyTypeTag) (id : Nat)
  deriving DecidableEq, Repr

/-- What a C function passes in the expected-type position of a
PyArg_ParseTuple O! conversion: either a real type object, or a stack
address that is not a type object at all (Sqe_prep_timeout_remove passes
the address of its local SqeObject* variable in that position). -/
inductive ExpectedType
  | real (t : PyTypeTag)
  | stackAddress
  deriving DecidableEq, Repr

/-- PyArg_ParseTuple O! conversion: succeeds, yielding the object, exactly
when the argument is an object of the expected type; an address that is
not a type object matches no object's type, so the check fails. -/
def parseObjBang : ExpectedType → PyArg → Option Nat
  | ExpectedType.real t, PyArg.obj ty i => if ty = t then some i else none
  | _, _ => none

/-- Value held in the addr field of a native submission entry. -/
inductive AddrVal
  | null
  | ownBuffer
  | view (owner : Nat)
  | sqeTag (id : Nat)
  deriving DecidableEq, Repr

/-- The fields of struct io_uring_sqe that this module writes: opcode, fd,
length, the addr pointer (a buffer, or an SqeObject pointer used as a
cancellation tag), and user_data (the tag set by IoUring_submit). -/
structure NativeSqe where
  opcode : Int
  fd : Int
  len : Nat
  addr : AddrVal
  user_data : Option Nat
  deriving DecidableEq, Repr

/-- A freshly reserved native submission entry before any prep call. -/
def NativeSqe.initial : NativeSqe :=
  { opcode := 0, fd := 0, len := 0, addr := AddrVal.null, user_data := none }

/-- SqeObject: one request descriptor.  id models the object identity (the
C pointer value, which IoUring_submit stores as the submission tag);
allocated_buffer models the owned PyBytes buffer; user_buffer models the
Py_buffer borrowed view (some owner exactly when user_buffer->obj is not
NULL); cqeobj is the non-owning cached pointer to the live CqeObject. -/
structure SqeObject where
  id : Nat
  fd : Int
  error : Int
  operation : Int
  allocated_buffer : Option (List Nat)
  user_buffer : Option Nat
  data : PyValue
  cqeobj : Option Nat
  slot : NativeSqe
  deriving DecidableEq, Repr

/-- Sqe_new: field initialisation as in the source (fd -1, error 0,
operation -1, no buffers, data None, no cached completion wrapper). -/
def Sqe_new (id : Nat) : SqeObject :=
  { id := id, fd := -1, error := 0, operation := -1,
    allocated_buffer := none, user_buffer := none,
    data := PyValue.none, cqeobj := none, slot := NativeSqe.initial }

/-- Sqe_reinit_buffer: releases the borrowed view if one is held and drops
the owned buffer if one is held, leaving both slots empty.  The source
null-checks each slot before releasing it; the post-state is empty either
way, so the model assigns both slots directly. -/
def Sqe_reinit_buffer (s : SqeObject) : SqeObject :=
  { s with user_buffer := none, allocated_buffer := none }

/-- PyBytes_FromStringAndSize(NULL, n): a fresh bytes object of length n
whose contents are uninitialized in C; modelled as zero bytes (no claim
reads the uninitialized contents). -/
def freshBytes (n : Nat) : List Nat := List.replicate n 0

/-- Sqe_prep_send: resets the buffer slot FIRST, then parses
(fd, buffer, optional flags); the y* conversion locks the caller buffer
into user_buffer.  args is the parse outcome: none models a validation
failure (wrong argument count or type), some gives the converted
(fd, view owner, view length, flags).  The Bool is false when the call
raises. -/
def Sqe_prep_send (s : SqeObject) (args : Option (Int × Nat × Nat × Int)) :
    SqeObject × Bool :=
  let s1 := Sqe_reinit_buffer s
  match args with
  | none => (s1, false)
  | some (fd, owner, len, _flags) =>
      let s2 := { s1 with user_buffer := some owner }
      let slot := { s2.slot with
                      opcode := IORING_OP_SEND, fd := fd,
                      len := len, addr := AddrVal.view owner }
      ({ s2 with slot := slot, operation := IORING_OP_SEND }, true)

/-- Sqe_prep_write: same shape as Sqe_prep_send with opcode WRITE. -/
def Sqe_prep_write (s : SqeObject) (args : Option (Int × Nat × Nat × Int)) :
    SqeObject × Bool :=
  let s1 := Sqe_reinit_buffer s
  match args with
  | none => (s1, false)
  | some (fd, owner, len, _offset) =>
      let s2 := { s1 with user_buffer := some owner }
      let slot := { s2.slot with
                      opcode := IORING_OP_WRITE, fd := fd,
                      len := len, addr := AddrVal.view owner }
      ({ s2 with slot := slot, operation := IORING_OP_WRITE }, true)

/-- Sqe_prep_recv: resets the buffer slot first, then parses
(fd, len, optional flags) and allocates an owned buffer of len bytes. -/
def Sqe_prep_recv (s : SqeObject) (args : Option (Int × Nat × Int)) :
    SqeObject × Bool :=
  let s1 := Sqe_reinit_buffer s
  match args with
  | none => (s1, false)
  | some (fd, len, _flags) =>
      let s2 := { s1 with allocated_buffer := some (freshBytes len) }
      let slot := { s2.slot with
                      opcode := IORING_OP_RECV, fd := fd,
                      len := len, addr := AddrVal.ownBuffer }
      ({ s2 with slot := slot, operation := IORING_OP_RECV }, true)

/-- Sqe_prep_read: same shape as Sqe_prep_recv with opcode READ and an
offset argument. -/
def Sqe_prep_read (s : SqeObject) (args : Option (Int × Nat × Int)) :
    SqeObject × Bool :=
  let s1 := Sqe_reinit_buffer s
  match args with
  | none => (s1, false)
  | some (fd, len, _offset) =>
      let s2 := { s1 with allocated_buffer := some (freshBytes len) }
      let slot := { s2.slot with
                      opcode := IORING_OP_READ, fd := fd,
                      len := len, addr := AddrVal.ownBuffer }
      ({ s2 with slot := slot, operation := IORING_OP_READ }, true)

/-- Size in bytes of struct sockaddr_in. -/
def sockaddrInSize : Nat := 16

/-- Sqe_prep_connect: resets the buffer slot first, then parses
(fd, (ip, port)) and builds a sockaddr_in in an owned buffer.  The
sin_family / sin_addr / sin_port stores into that buffer are not modelled
byte-by-byte (no claim reads them); the owned buffer and the slot encoding
are what the claims observe. -/
def Sqe_prep_connect (s : SqeObject) (args : Option (Int × Nat × Nat)) :
    SqeObject × Bool :=
  let s1 := Sqe_reinit_buffer s
  match args with
  | none => (s1, false)
  | some (fd, _ip, _port) =>
      let s2 := { s1 with allocated_buffer := some (freshBytes sockaddrInSize) }
      let slot := { s2.slot with
                      opcode := IORING_OP_CONNECT, fd := fd,
                      len := sockaddrInSize, addr := AddrVal.ownBuffer }
      ({ s2 with slot := slot, operation := IORING_OP_CONNECT }, true)

/-- Sqe_prep_accept: resets the buffer slot first, then parses
(fd, optional flags) and allocates an owned buffer holding a sockaddr_in
plus its socklen_t length word (pre-filled with the struct size; the
pre-fill store is not modelled byte-by-byte). -/
def Sqe_prep_accept (s : SqeObject) (args : Option (Int × Int)) :
    SqeObject × Bool :=
  let s1 := Sqe_reinit_buffer s
  match args with
  | none => (s1, false)
  | some (fd, _flags) =>
      let s2 := { s1 with allocated_buffer := some (freshBytes (sockaddrInSize + 4)) }
      let slot := { s2.slot with
                      opcode := IORING_OP_ACCEPT, fd := fd,
                      len := 0, addr := AddrVal.ownBuffer }
      ({ s2 with slot := slot, operation := IORING_OP_ACCEPT }, true)

/-- C cast (long long) of a floating-point value, truncation toward zero,
on the rational model of the C double. -/
def truncToInt (q : Rat) : Int := Int.tdiv q.num (q.den : Int)

/-- Size in bytes of struct __kernel_timespec. -/
def timespecSize : Nat := 16

/-- Sqe_prep_timeout: resets the buffer slot first, then parses
(timeout, optional count, optional flags) and allocates an owned buffer
holding a __kernel_timespec split of the timeout (the stores into the
buffer are not modelled byte-by-byte). -/
def Sqe_prep_timeout (s : SqeObject) (args : Option (Rat × Nat × Nat)) :
    SqeObject × Bool :=
  let s1 := Sqe_reinit_buffer s
  match args with
  | none => (s1, false)
  | some (timeout, count, _flags) =>
      let s2 := { s1 with allocated_buffer := some (freshBytes timespecSize) }
      let _tv_sec : Int := truncToInt timeout
      let slot := { s2.slot with
                      opcode := IORING_OP_TIMEOUT, fd := -1,
                      len := count, addr := AddrVal.ownBuffer }
      ({ s2 with slot := slot, operation := IORING_OP_TIMEOUT }, true)

/-- Sqe_prep_nop: takes no arguments and does NOT call Sqe_reinit_buffer;
it encodes a no-op into the native slot (io_uring_prep_nop zeroes fd to -1,
addr to NULL and len to 0) and records the opcode. -/
def Sqe_prep_nop (s : SqeObject) : SqeObject × Bool :=
  let slot := { s.slot with
                  opcode := IORING_OP_NOP, fd := -1,
                  len := 0, addr := AddrVal.null }
  ({ s with slot := slot, operation := IORING_OP_NOP }, true)

/-- Sqe_prep_close: parses (fd) with no buffer reset (the source does not
call Sqe_reinit_buffer here), encodes a close into the native slot. -/
def Sqe_prep_close (s : SqeObject) (args : Option Int) : SqeObject × Bool :=
  match args with
  | none => (s, false)
  | some fd =>
      let slot := { s.slot with
                      opcode := IORING_OP_CLOSE, fd := fd,
                      len := 0, addr := AddrVal.null }
      ({ s with slot := slot, operation := IORING_OP_CLOSE }, true)

/-- Sqe_prep_cancel: no buffer reset; parses format O!I against SqeType so
the first argument must be an Sqe object (yielding its identity, the
pointer value) and the second an unsigned; io_uring_prep_cancel then
stores that Sqe pointer in the addr field as the cancellation tag. -/
def Sqe_prep_cancel (s : SqeObject) (args : List PyArg) : SqeObject × Bool :=
  match args with
  | [a, PyArg.int _flags] =>
      match parseObjBang (ExpectedType.real PyTypeTag.sqeType) a with
      | none => (s, false)
      | some targetId =>
          let slot := { s.slot with
                          opcode := IORING_OP_ASYNC_CANCEL, fd := -1,
                          len := 0, addr := AddrVal.sqeTag targetId }
          ({ s with slot := slot, operation := IORING_OP_ASYNC_CANCEL }, true)
  | _ => (s, false)

/-- Sqe_prep_timeout_remove: the source passes the ADDRESS OF ITS LOCAL
SqeObject* variable in the position where the O! conversion expects a
PyTypeObject*, and the address of its unsigned flags variable where the
converted object would be stored.  The type check therefore compares the
argument type against a stack address and never succeeds, so the call
always raises TypeError and the native slot is never written.  (The some
branch is unreachable; were it reached, the source would encode the still
uninitialized local, not the target, so no branch encodes the target.) -/
def Sqe_prep_timeout_remove (s : SqeObject) (args : List PyArg) :
    SqeObject × Bool :=
  match args with
  | [a, PyArg.int _flags] =>
      match parseObjBang ExpectedType.stackAddress a with
      | some _ => (s, false)
      | none => (s, false)
  | _ => (s, false)
/-- Sqe_prep_openat: unimplemented stub in the source; it only copies
whatever opcode is already in the native slot into operation. -/
def Sqe_prep_openat (s : SqeObject) : SqeObject × Bool :=
  ({ s with operation := s.slot.opcode }, true)

/-- Outcome of IoUring_submit: the batch as handed to the kernel (the
native slots were tagged before the io_uring_submit call), the
wait_submit list afterwards, the number of strong references (pins) taken
on pending requests, and the Python-level result. -/
structure SubmitOutcome where
  submitted : List SqeObject
  pending : List SqeObject
  newPins : Nat
  result : Except Int PyValue
  deriving Repr

/-- IoUring_submit: for every request in wait_submit, stores that
request's own identity (its pointer) in the native slot's user_data via
io_uring_sqe_set_data and takes a strong reference (Py_INCREF) on it;
then calls io_uring_submit, whose return value kret is a parameter.  When
kret < 0 it raises OSError(-kret) and leaves wait_submit in place;
otherwise it replaces wait_submit with a fresh empty list and returns
None — the count kret is computed but never returned. -/
def IoUring_submit (pending : List SqeObject) (kret : Int) : SubmitOutcome :=
  let tagged := pending.map fun q =>
    { q with slot := { q.slot with user_data := some q.id } }
  let pins := pending.length
  if kret < 0 then
    { submitted := tagged, pending := tagged, newPins := pins,
      result := Except.error (-kret) }
  else
    { submitted := tagged, pending := [], newPins := pins,
      result := Except.ok PyValue.none }

/-- Timespec argument given to io_uring_wait_cqes: bounded carries the
__kernel_timespec split of the timeout, unbounded models passing NULL
(wait with no time bound). -/
inductive WaitBound
  | bounded (tv_sec tv_nsec : Int)
  | unbounded
  deriving DecidableEq, Repr

/-- IoUring_wait_cqes, timeout handling: PyArg_ParseTuple format I|d
leaves the C double at its initialiser 0 when the second argument is
absent, and the branch if (timeout) tests the NUMERIC VALUE, so an
explicit 0 timeout and an absent timeout both take the NULL-timespec
(unbounded) path; any nonzero timeout is split into whole seconds and
nanoseconds by (long long) casts.  The C double is modelled as Rat. -/
def IoUring_wait_cqes_bound (timeoutArg : Option Rat) : WaitBound :=
  let timeout : Rat := timeoutArg.getD 0
  if timeout ≠ 0 then
    let sec : Int := truncToInt timeout
    let nsec : Int := truncToInt ((timeout - (sec : Rat)) * 1000000000)
    WaitBound.bounded sec nsec
  else
    WaitBound.unbounded

/-- State that IoUring_cqe_seen touches for one completion wrapper: the
seen flag, how many times the native completion slot has been released
(calls to io_uring_cqe_seen), and how many times the submission-time pin
has been released (the Py_DECREF of the request that balances the
Py_INCREF taken by IoUring_submit). -/
structure SeenState where
  seen : Bool
  slotReleases : Nat
  pinReleases : Nat
  deriving DecidableEq, Repr

/-- IoUring_cqe_seen: when the wrapper has not been acknowledged yet, it
releases the native completion slot, sets the seen flag and releases the
request pin; when the flag is already set the body is skipped entirely
and the call returns None with no effect. -/
def IoUring_cqe_seen (s : SeenState) : SeenState :=
  if !s.seen then
    { seen := true, slotReleases := s.slotReleases + 1,
      pinReleases := s.pinReleases + 1 }
  else s

/-- Per-request completion-wrapper cache state: cache models the
non-owning sqeobj->cqeobj pointer, live the identities of the CqeObject
wrappers currently alive for this request, and nextId a freshness counter
(a newly constructed CqeObject is a distinct object from every wrapper
that was ever alive, so live identities stay below nextId). -/
structure CqeCacheState where
  cache : Option Nat
  live : List Nat
  nextId : Nat
  deriving DecidableEq, Repr

/-- Cache state of a request that has never had a completion wrapper. -/
def CqeCacheState.initial : CqeCacheState :=
  { cache := none, live := [], nextId := 0 }

/-- Wrapper-cache step shared by IoUring_wait_cqe_nr_impl,
IoUring_wait_cqes and IoUring_wait_single_cqe (hence by wait_cqe,
peek_cqe, wait_cqe_nr and wait_cqes): when sqeobj->cqeobj is NULL a new
CqeObject is constructed, stored in the cache without an extra reference,
and returned; otherwise the cached wrapper is returned again with its
reference count increased.  Yields the new state and the identity of the
wrapper handed to the caller. -/
def retrieveCqe (s : CqeCacheState) : CqeCacheState × Nat :=
  match s.cache with
  | none =>
      ({ cache := some s.nextId, live := s.live ++ [s.nextId],
         nextId := s.nextId + 1 }, s.nextId)
  | some c => (s, c)

/-- Cqe_dealloc: runs when a wrapper's last reference is dropped (so only
on a currently live wrapper); it unconditionally clears sqeobj->cqeobj,
drops its strong reference to the request, and the wrapper stops being
alive. -/
def Cqe_dealloc (s : CqeCacheState) (c : Nat) : CqeCacheState :=
  { cache := none, live := s.live.erase c, nextId := s.nextId }

/-- CacheInv: invariant of the wrapper cache reachable from the initial
state: either no wrapper is alive and the cache is empty, or exactly the
cached wrapper is alive; every live identity is below the freshness
counter. -/
def CacheInv (s : CqeCacheState) : Prop :=
  match s.cache with
  | none => s.live = []
  | some c => s.live = [c] ∧ c < s.nextId

/-- Result of Cqe_getresult as seen by the Python caller. -/
inductive DecodeResult
  | ok (v : PyValue)
  | oserror (code : Int)
  | crash
  deriving DecidableEq, Repr

/-- _PyBytes_Resize: keeps the first min(n, old length) bytes; bytes
beyond the old length are uninitialized in C, modelled as zero. -/
def resizeBytes (b : List Nat) (n : Nat) : List Nat :=
  b.take n ++ List.replicate (n - b.length) 0

/-- Cqe_getresult: decodes (operation, raw result, owned buffer).  A
negative raw result raises OSError(-res) before the opcode switch runs.
Then: NOP returns None; READ and RECV resize the owned buffer in place to
res bytes when its size differs from res and return it (reaching this
branch with no owned buffer dereferences NULL in the source, modelled as
crash); every other operation value returns the raw integer.  Allocation
failure inside _PyBytes_Resize is not modelled. -/
def Cqe_getresult (op : Int) (res : Int) (allocated : Option (List Nat)) :
    Option (List Nat) × DecodeResult :=
  if res < 0 then (allocated, DecodeResult.oserror (-res))
  else if op = IORING_OP_NOP then (allocated, DecodeResult.ok PyValue.none)
  else if op = IORING_OP_READ ∨ op = IORING_OP_RECV then
    match allocated with
    | none => (none, DecodeResult.crash)
    | some buf =>
        let out := if res.toNat = buf.length then buf else resizeBytes buf res.toNat
        (some out, DecodeResult.ok (PyValue.bytes out))
  else (allocated, DecodeResult.ok (PyValue.int res))
/-- Length of a _PyBytes_Resize result is exactly the requested size. -/
theorem resizeBytes_length (b : List Nat) (n : Nat) : (resizeBytes b n).length = n := by
  simp only [resizeBytes, List.length_append, List.length_take, List.length_replicate]
  omega

/-- Shape of Cqe_getresult on READ or RECV with a non-negative result:
the owned buffer, resized when its length differs from the result, is
stored back and returned. -/
theorem getresult_read_recv (op res : Int) (buf : List Nat)
    (hres : 0 ≤ res) (hop : op = IORING_OP_READ ∨ op = IORING_OP_RECV) :
    Cqe_getresult op res (some buf)
      = (some (if res.toNat = buf.length then buf else resizeBytes buf res.toNat),
         DecodeResult.ok (PyValue.bytes
           (if res.toNat = buf.length then buf else resizeBytes buf res.toNat))) := by
  have hneg : ¬ res < 0 := not_lt.mpr hres
  have hnop : op ≠ IORING_OP_NOP := by
    rcases hop with h | h <;> subst h <;> decide
  unfold Cqe_getresult
  rw [if_neg hneg, if_neg hnop, if_pos hop]

/-- Sqe_prep_timeout_remove never succeeds and never changes the request:
its O! conversion checks the argument against a stack address instead of
a type object, so every argument list is rejected. -/
theorem prep_timeout_remove_always_fails (s : SqeObject) (a : List PyArg) :
    Sqe_prep_timeout_remove s a = (s, false) :=
  match a with
  | [] => rfl
  | [PyArg.int _] => rfl
  | [PyArg.obj _ _] => rfl
  | [PyArg.int _, PyArg.int _] => rfl
  | [PyArg.obj _ _, PyArg.int _] => rfl
  | [_, PyArg.obj _ _] => rfl
  | _ :: PyArg.int _ :: _ :: _ => rfl
  | _ :: PyArg.obj _ _ :: _ :: _ => rfl

/-- Sqe_prep_cancel leaves both buffer slots untouched whatever its
arguments are. -/
theorem prep_cancel_buffers (s : SqeObject) (a : List PyArg) :
    (Sqe_prep_cancel s a).1.allocated_buffer = s.allocated_buffer
    ∧ (Sqe_prep_cancel s a).1.user_buffer = s.user_buffer :=
  match a with
  | [] => ⟨rfl, rfl⟩
  | [PyArg.int _] => ⟨rfl, rfl⟩
  | [PyArg.obj _ _] => ⟨rfl, rfl⟩
  | [PyArg.int _, PyArg.int _] => ⟨rfl, rfl⟩
  | [PyArg.obj PyTypeTag.sqeType _, PyArg.int _] => ⟨rfl, rfl⟩
  | [PyArg.obj PyTypeTag.cqeType _, PyArg.int _] => ⟨rfl, rfl⟩
  | [PyArg.obj PyTypeTag.ringType _, PyArg.int _] => ⟨rfl, rfl⟩
  | [_, PyArg.obj _ _] => ⟨rfl, rfl⟩
  | _ :: PyArg.int _ :: _ :: _ => ⟨rfl, rfl⟩
  | _ :: PyArg.obj _ _ :: _ :: _ => ⟨rfl, rfl⟩

/-- Claim C1: under the cache invariant, at most one completion wrapper is
alive per request; a retrieval for a request with a live cached wrapper
returns exactly that wrapper and creates nothing; retrieval preserves the
invariant; and destroying a live wrapper clears the request's cache
pointer, preserves the invariant, and makes the next retrieval produce a
fresh wrapper distinct from every previously live one. -/
theorem c1_completion_cache (s : CqeCacheState) (hInv : CacheInv s) :
    s.live.length ≤ 1
    ∧ (∀ c, s.cache = some c → retrieveCqe s = (s, c))
    ∧ CacheInv (retrieveCqe s).1
    ∧ (∀ c, c ∈ s.live →
        (Cqe_dealloc s c).cache = none
        ∧ CacheInv (Cqe_dealloc s c)
        ∧ (retrieveCqe (Cqe_dealloc s c)).2 ∉ s.live) := by
  obtain ⟨cache, live, nextId⟩ := s
  cases cache with
  | none =>
      have hl : live = [] := hInv
      subst hl
      refine ⟨by simp, ?_, ?_, ?_⟩
      · intro c h; cases h
      · exact ⟨rfl, Nat.lt_succ_self _⟩
      · intro c hc; cases hc
  | some c0 =>
      obtain ⟨hl, hlt⟩ := hInv
      subst hl
      refine ⟨by simp, ?_, ?_, ?_⟩
      · intro c h
        injection h with h
        subst h
        rfl
      · exact ⟨rfl, hlt⟩
      · intro c hc
        have hc0 : c = c0 := by simpa using hc
        subst hc0
        refine ⟨rfl, ?_, ?_⟩
        · show ({ cache := none, live := [c].erase c, nextId := nextId } : CqeCacheState).live = []
          simp
        · show (nextId : Nat) ∉ [c]
          have hlt2 : c < nextId := hlt
          simp only [List.mem_singleton]
          omega

/-- Witness for C1: the state after one retrieval from a fresh request
satisfies the invariant and the cache properties hold there. -/
theorem c1_completion_cache_witness :
    CacheInv { cache := some 0, live := [0], nextId := 1 }
    ∧ (({ cache := some 0, live := [0], nextId := 1 } : CqeCacheState).live.length ≤ 1
       ∧ (∀ c, ({ cache := some 0, live := [0], nextId := 1 } : CqeCacheState).cache = some c →
            retrieveCqe { cache := some 0, live := [0], nextId := 1 }
              = ({ cache := some 0, live := [0], nextId := 1 }, c))
       ∧ CacheInv (retrieveCqe { cache := some 0, live := [0], nextId := 1 }).1
       ∧ (∀ c, c ∈ ({ cache := some 0, live := [0], nextId := 1 } : CqeCacheState).live →
            (Cqe_dealloc { cache := some 0, live := [0], nextId := 1 } c).cache = none
            ∧ CacheInv (Cqe_dealloc { cache := some 0, live := [0], nextId := 1 } c)
            ∧ (retrieveCqe (Cqe_dealloc { cache := some 0, live := [0], nextId := 1 } c)).2
                ∉ ({ cache := some 0, live := [0], nextId := 1 } : CqeCacheState).live)) :=
  ⟨⟨rfl, Nat.lt_succ_self 0⟩,
   c1_completion_cache { cache := some 0, live := [0], nextId := 1 } ⟨rfl, Nat.lt_succ_self 0⟩⟩

/-- Claim C2: acknowledgment is idempotent: applying IoUring_cqe_seen
twice equals applying it once; the first call on an unacknowledged
wrapper releases the native slot exactly once, releases the request pin
exactly once and sets the seen flag; a call on an acknowledged wrapper
changes nothing. -/
theorem c2_cqe_seen_idempotent :
    (∀ s : SeenState, IoUring_cqe_seen (IoUring_cqe_seen s) = IoUring_cqe_seen s)
    ∧ (∀ a b : Nat,
        IoUring_cqe_seen { seen := false, slotReleases := a, pinReleases := b }
          = { seen := true, slotReleases := a + 1, pinReleases := b + 1 })
    ∧ (∀ a b : Nat,
        IoUring_cqe_seen { seen := true, slotReleases := a, pinReleases := b }
          = { seen := true, slotReleases := a, pinReleases := b }) := by
  refine ⟨?_, fun a b => rfl, fun a b => rfl⟩
  intro s
  obtain ⟨seen, a, b⟩ := s
  cases seen <;> rfl

/-- Claim C3 (code bug): on one pending nop request accepted by the
kernel (return 1), IoUring_submit tags the native slot with the request's
own identity, takes one pin, clears the pending list — but returns None,
not the count 1 that its own docstring promises; a negative kernel return
is raised as OSError with the negated code. -/
theorem c3_submit_returns_none_not_count :
    (((IoUring_submit [(Sqe_prep_nop (Sqe_new 7)).1] 1).submitted.map
        fun q => q.slot.user_data) = [some 7])
    ∧ (IoUring_submit [(Sqe_prep_nop (Sqe_new 7)).1] 1).newPins = 1
    ∧ (IoUring_submit [(Sqe_prep_nop (Sqe_new 7)).1] 1).pending = []
    ∧ (IoUring_submit [(Sqe_prep_nop (Sqe_new 7)).1] 1).result = Except.ok PyValue.none
    ∧ (IoUring_submit [(Sqe_prep_nop (Sqe_new 7)).1] 1).result
        ≠ Except.ok (PyValue.int 1)
    ∧ (IoUring_submit [(Sqe_prep_nop (Sqe_new 7)).1] (-11)).result = Except.error 11 := by
  refine ⟨rfl, rfl, rfl, rfl, fun h => ?_, rfl⟩
  have h2 : PyValue.none = PyValue.int 1 := by
    have h3 : (Except.ok PyValue.none : Except Int PyValue) = Except.ok (PyValue.int 1) := h
    injection h3
  exact PyValue.noConfusion h2

/-- Claim C4: for every operation value and buffer, a negative raw result
decodes to an OS error whose code is the negated raw result, with the
buffer untouched — the error branch precedes every opcode-specific
branch, so no opcode-specific value is produced. -/
theorem c4_negative_result_oserror (op res : Int) (allocated : Option (List Nat))
    (hres : res < 0) :
    Cqe_getresult op res allocated = (allocated, DecodeResult.oserror (-res)) := by
  unfold Cqe_getresult
  rw [if_pos hres]

/-- Witness for C4: a READ completion with raw result -2 decodes to
OSError 2. -/
theorem c4_negative_result_oserror_witness :
    (-2 : Int) < 0
    ∧ Cqe_getresult IORING_OP_READ (-2) (some [1, 2])
        = (some [1, 2], DecodeResult.oserror 2) :=
  ⟨by decide, c4_negative_result_oserror IORING_OP_READ (-2) (some [1, 2]) (by decide)⟩

/-- Claim C5: with a non-negative raw result, READ and RECV return the
owned buffer resized to exactly the result in bytes, NOP returns the unit
value None, and every other operation returns the raw integer. -/
theorem c5_decoded_result (op res : Int) (buf : List Nat) (hres : 0 ≤ res) :
    ((op = IORING_OP_READ ∨ op = IORING_OP_RECV) →
        ∃ out : List Nat,
          Cqe_getresult op res (some buf)
            = (some out, DecodeResult.ok (PyValue.bytes out))
          ∧ out.length = res.toNat)
    ∧ (op = IORING_OP_NOP →
        Cqe_getresult op res (some buf) = (some buf, DecodeResult.ok PyValue.none))
    ∧ (op ≠ IORING_OP_NOP → op ≠ IORING_OP_READ → op ≠ IORING_OP_RECV →
        Cqe_getresult op res (some buf)
          = (some buf, DecodeResult.ok (PyValue.int res))) := by
  have hneg : ¬ res < 0 := not_lt.mpr hres
  refine ⟨?_, ?_, ?_⟩
  · intro hop
    refine ⟨_, getresult_read_recv op res buf hres hop, ?_⟩
    by_cases h : res.toNat = buf.length
    · simp [h]
    · simp [h, resizeBytes_length]
  · intro hop
    subst hop
    unfold Cqe_getresult
    rw [if_neg hneg, if_pos rfl]
  · intro h0 hr hv
    have hrv : ¬ (op = IORING_OP_READ ∨ op = IORING_OP_RECV) := by
      rintro (h | h)
      · exact hr h
      · exact hv h
    unfold Cqe_getresult
    rw [if_neg hneg, if_neg h0, if_neg hrv]

/-- Witness for C5: a READ of a 5-byte buffer completing with result 3
decodes to a byte sequence of length exactly 3. -/
theorem c5_decoded_result_witness :
    (0 : Int) ≤ 3
    ∧ (((IORING_OP_READ = IORING_OP_READ ∨ IORING_OP_READ = IORING_OP_RECV) →
          ∃ out : List Nat,
            Cqe_getresult IORING_OP_READ 3 (some [1, 2, 3, 4, 5])
              = (some out, DecodeResult.ok (PyValue.bytes out))
            ∧ out.length = (3 : Int).toNat)
       ∧ (IORING_OP_READ = IORING_OP_NOP →
            Cqe_getresult IORING_OP_READ 3 (some [1, 2, 3, 4, 5])
              = (some [1, 2, 3, 4, 5], DecodeResult.ok PyValue.none))
       ∧ (IORING_OP_READ ≠ IORING_OP_NOP → IORING_OP_READ ≠ IORING_OP_READ →
            IORING_OP_READ ≠ IORING_OP_RECV →
            Cqe_getresult IORING_OP_READ 3 (some [1, 2, 3, 4, 5])
              = (some [1, 2, 3, 4, 5], DecodeResult.ok (PyValue.int 3)))) :=
  ⟨by decide, c5_decoded_result IORING_OP_READ 3 [1, 2, 3, 4, 5] (by decide)⟩

/-- Counterexample to C6: an explicit 0 timeout takes the same
NULL-timespec (wait forever) path as an absent timeout — it is not a
zero-second bounded wait, so presence of the argument is not the
discriminator. -/
theorem c6_zero_timeout_counterexample :
    IoUring_wait_cqes_bound (some 0) = WaitBound.unbounded
    ∧ IoUring_wait_cqes_bound (some 0) = IoUring_wait_cqes_bound none
    ∧ IoUring_wait_cqes_bound (some 0) ≠ WaitBound.bounded 0 0 := by
  refine ⟨rfl, rfl, fun h => ?_⟩
  have h2 : WaitBound.unbounded = WaitBound.bounded 0 0 := h
  exact WaitBound.noConfusion h2

/-- Claim C6 as amended: the NUMERIC VALUE of the timeout is the
discriminator of whether a bounded wait is performed, not its presence: a
wait with a given timeout is unbounded exactly when that timeout is 0,
and an absent timeout is unbounded — so wait(n, 0.0) waits forever, the
same as wait(n). -/
theorem c6_timeout_value_is_discriminator (q : Rat) :
    (IoUring_wait_cqes_bound (some q) = WaitBound.unbounded ↔ q = 0)
    ∧ IoUring_wait_cqes_bound none = WaitBound.unbounded := by
  refine ⟨?_, rfl⟩
  unfold IoUring_wait_cqes_bound
  by_cases h : q = 0
  · subst h
    simp
  · simp only [Option.getD_some]
    rw [if_pos h]
    simp [h]

/-- Counterexample to C7: a request holding a 3-byte owned buffer from a
prior recv preparation loses that buffer when a send preparation fails
validation — the failing call has already cleared the buffer slot, so the
previous state is not intact. -/
theorem c7_failed_prep_clears_prior_buffer :
    ((Sqe_prep_recv (Sqe_new 0) (some (4, 3, 0))).1.allocated_buffer
        = some [0, 0, 0])
    ∧ (Sqe_prep_send ((Sqe_prep_recv (Sqe_new 0) (some (4, 3, 0))).1) none).2 = false
    ∧ ((Sqe_prep_send ((Sqe_prep_recv (Sqe_new 0) (some (4, 3, 0))).1) none).1.allocated_buffer
        = none)
    ∧ ((Sqe_prep_send ((Sqe_prep_recv (Sqe_new 0) (some (4, 3, 0))).1) none).1.allocated_buffer
        ≠ (Sqe_prep_recv (Sqe_new 0) (some (4, 3, 0))).1.allocated_buffer) := by
  refine ⟨rfl, rfl, rfl, ?_⟩
  decide

/-- Claim C7 as amended: a prepare call that fails argument validation
surfaces the error synchronously with the request's opcode, native slot
encoding and user data unchanged, but for the buffer-carrying prepare
calls (send, write, recv, read, connect, accept, timeout) the previously
held owned buffer and borrowed-view lock have already been released
before validation runs (the buffer slot is left empty, not intact);
close, which parses before touching anything, leaves the full state
intact. -/
theorem c7_validation_error_state (s : SqeObject) :
    Sqe_prep_send s none = (Sqe_reinit_buffer s, false)
    ∧ Sqe_prep_write s none = (Sqe_reinit_buffer s, false)
    ∧ Sqe_prep_recv s none = (Sqe_reinit_buffer s, false)
    ∧ Sqe_prep_read s none = (Sqe_reinit_buffer s, false)
    ∧ Sqe_prep_connect s none = (Sqe_reinit_buffer s, false)
    ∧ Sqe_prep_accept s none = (Sqe_reinit_buffer s, false)
    ∧ Sqe_prep_timeout s none = (Sqe_reinit_buffer s, false)
    ∧ Sqe_prep_close s none = (s, false)
    ∧ (Sqe_reinit_buffer s).allocated_buffer = none
    ∧ (Sqe_reinit_buffer s).user_buffer = none
    ∧ (Sqe_reinit_buffer s).operation = s.operation
    ∧ (Sqe_reinit_buffer s).slot = s.slot
    ∧ (Sqe_reinit_buffer s).data = s.data :=
  ⟨rfl, rfl, rfl, rfl, rfl, rfl, rfl, rfl, rfl, rfl, rfl, rfl, rfl⟩

/-- Counterexample to C8: a successful no-op preparation on a request
holding a 3-byte owned buffer from a prior recv preparation leaves that
buffer attached — prep_nop does not release the previously held owned
buffer. -/
theorem c8_prep_nop_keeps_prior_buffer :
    ((Sqe_prep_recv (Sqe_new 0) (some (4, 3, 0))).1.allocated_buffer = some [0, 0, 0])
    ∧ (Sqe_prep_nop ((Sqe_prep_recv (Sqe_new 0) (some (4, 3, 0))).1)).2 = true
    ∧ ((Sqe_prep_nop ((Sqe_prep_recv (Sqe_new 0) (some (4, 3, 0))).1)).1.allocated_buffer
        = some [0, 0, 0])
    ∧ ((Sqe_prep_nop ((Sqe_prep_recv (Sqe_new 0) (some (4, 3, 0))).1)).1.allocated_buffer
        ≠ none) := by
  refine ⟨rfl, rfl, rfl, ?_⟩
  decide

/-- Claim C8 as amended: only the buffer-carrying prepare calls (send,
write, recv, read, connect, accept, timeout) release any previously held
owned buffer and borrowed-view lock first — each factors through the
buffer reset, so its outcome is the same as from a reset request; no-op,
close, cancel, timeout-remove and openat leave both buffer slots exactly
as they were. -/
theorem c8_buffer_release_only_in_buffer_preps (s : SqeObject) :
    (∀ a, Sqe_prep_send s a = Sqe_prep_send (Sqe_reinit_buffer s) a)
    ∧ (∀ a, Sqe_prep_write s a = Sqe_prep_write (Sqe_reinit_buffer s) a)
    ∧ (∀ a, Sqe_prep_recv s a = Sqe_prep_recv (Sqe_reinit_buffer s) a)
    ∧ (∀ a, Sqe_prep_read s a = Sqe_prep_read (Sqe_reinit_buffer s) a)
    ∧ (∀ a, Sqe_prep_connect s a = Sqe_prep_connect (Sqe_reinit_buffer s) a)
    ∧ (∀ a, Sqe_prep_accept s a = Sqe_prep_accept (Sqe_reinit_buffer s) a)
    ∧ (∀ a, Sqe_prep_timeout s a = Sqe_prep_timeout (Sqe_reinit_buffer s) a)
    ∧ ((Sqe_prep_nop s).1.allocated_buffer = s.allocated_buffer
       ∧ (Sqe_prep_nop s).1.user_buffer = s.user_buffer)
    ∧ (∀ a, (Sqe_prep_close s a).1.allocated_buffer = s.allocated_buffer
          ∧ (Sqe_prep_close s a).1.user_buffer = s.user_buffer)
    ∧ (∀ a, (Sqe_prep_cancel s a).1.allocated_buffer = s.allocated_buffer
          ∧ (Sqe_prep_cancel s a).1.user_buffer = s.user_buffer)
    ∧ (∀ a, (Sqe_prep_timeout_remove s a).1.allocated_buffer = s.allocated_buffer
          ∧ (Sqe_prep_timeout_remove s a).1.user_buffer = s.user_buffer)
    ∧ ((Sqe_prep_openat s).1.allocated_buffer = s.allocated_buffer
       ∧ (Sqe_prep_openat s).1.user_buffer = s.user_buffer) := by
  refine ⟨fun a => ?_, fun a => ?_, fun a => ?_, fun a => ?_, fun a => ?_,
          fun a => ?_, fun a => ?_, ⟨rfl, rfl⟩, fun a => ?_, fun a => ?_,
          fun a => ?_, ⟨rfl, rfl⟩⟩
  · cases a <;> rfl
  · cases a <;> rfl
  · cases a <;> rfl
  · cases a <;> rfl
  · cases a <;> rfl
  · cases a <;> rfl
  · cases a <;> rfl
  · cases a <;> exact ⟨rfl, rfl⟩
  · exact prep_cancel_buffers s a
  · rw [prep_timeout_remove_always_fails s a]
    exact ⟨rfl, rfl⟩

/-- Counterexample to C9: submit tags a request with its own identity
(here 5), and prep_cancel targeting that request encodes exactly that tag
value; but prep_timeout_remove on the very same argument list fails and
leaves the native slot without the target tag — the two operations do not
use the identity consistently. -/
theorem c9_timeout_remove_never_encodes_target :
    (((IoUring_submit [Sqe_new 5] 1).submitted.map fun q => q.slot.user_data)
        = [some 5])
    ∧ ((Sqe_prep_cancel (Sqe_new 6)
          [PyArg.obj PyTypeTag.sqeType 5, PyArg.int 0]).1.slot.addr
        = AddrVal.sqeTag 5)
    ∧ (Sqe_prep_timeout_remove (Sqe_new 7)
          [PyArg.obj PyTypeTag.sqeType 5, PyArg.int 0]
        = (Sqe_new 7, false))
    ∧ ((Sqe_prep_timeout_remove (Sqe_new 7)
          [PyArg.obj PyTypeTag.sqeType 5, PyArg.int 0]).1.slot.addr
        ≠ AddrVal.sqeTag 5) := by
  refine ⟨rfl, rfl, rfl, ?_⟩
  decide

/-- Claim C9 as amended: prep_cancel encodes the target request's stable
identity — the same value submit stores as that request's tag — into the
native slot; prep_timeout_remove, whose argument conversion is broken
(the expected-type and destination slots of its O! conversion are
misused), always fails without encoding any target, so the two operations
are not consistent. -/
theorem c9_cancel_uses_tag_remove_broken (s target : SqeObject) (flags : Int)
    (a : List PyArg) (kret : Int) :
    ((Sqe_prep_cancel s
        [PyArg.obj PyTypeTag.sqeType target.id, PyArg.int flags]).1.slot.addr
      = AddrVal.sqeTag target.id)
    ∧ ((Sqe_prep_cancel s
        [PyArg.obj PyTypeTag.sqeType target.id, PyArg.int flags]).2 = true)
    ∧ (((IoUring_submit [target] kret).submitted.map fun q => q.slot.user_data)
        = [some target.id])
    ∧ Sqe_prep_timeout_remove s a = (s, false) := by
  refine ⟨rfl, rfl, ?_, prep_timeout_remove_always_fails s a⟩
  unfold IoUring_submit
  split <;> rfl

/-- Claim C10: decoding a READ or RECV completion with a non-negative raw
result resizes the request's owned buffer in place to exactly that many
bytes and returns it; decoding the same completion again finds the buffer
already at that length and returns the same buffer with the same
contents, leaving the state unchanged. -/
theorem c10_getresult_idempotent (op res : Int) (buf : List Nat)
    (hop : op = IORING_OP_READ ∨ op = IORING_OP_RECV) (hres : 0 ≤ res) :
    ∃ out : List Nat,
      Cqe_getresult op res (some buf)
        = (some out, DecodeResult.ok (PyValue.bytes out))
      ∧ out.length = res.toNat
      ∧ Cqe_getresult op res (some out)
        = (some out, DecodeResult.ok (PyValue.bytes out)) := by
  set out := if res.toNat = buf.length then buf else resizeBytes buf res.toNat with hout
  have hlen : out.length = res.toNat := by
    rw [hout]
    by_cases h : res.toNat = buf.length
    · simp [h]
    · simp [h, resizeBytes_length]
  refine ⟨out, getresult_read_recv op res buf hres hop, hlen, ?_⟩
  have h2 := getresult_read_recv op res out hres hop
  rw [h2, if_pos hlen.symm]

/-- Witness for C10: decoding a READ of a 5-byte buffer with result 3
twice yields the same 3-byte buffer both times. -/
theorem c10_getresult_idempotent_witness :
    (IORING_OP_READ = IORING_OP_READ ∨ IORING_OP_READ = IORING_OP_RECV)
    ∧ (0 : Int) ≤ 3
    ∧ (∃ out : List Nat,
        Cqe_getresult IORING_OP_READ 3 (some [1, 2, 3, 4, 5])
          = (some out, DecodeResult.ok (PyValue.bytes out))
        ∧ out.length = (3 : Int).toNat
        ∧ Cqe_getresult IORING_OP_READ 3 (some out)
          = (some out, DecodeResult.ok (PyValue.bytes out))) :=
  ⟨Or.inl rfl, by decide,
   c10_getresult_idempotent IORING_OP_READ 3 [1, 2, 3, 4, 5] (Or.inl rfl) (by decide)⟩

end PyIoUring
